import Mathlib

/-!
Verification development for the maintainer dashboard aggregation pipeline
(`DashboardTab.tsx`).  The TypeScript source is shallowly embedded below:
timestamps are epoch milliseconds (`Int`), optional fields are `Option`,
JavaScript strings are Lean `String`s (reasoned about through their `.data`
character lists), and the stable `Array.prototype.sort` is modelled by a
stable insertion sort parameterised by the comparator from the source.
-/

/-! ## Data model -/

/-- Icon references used by the stat cards (`lucide-react` imports). -/
inductive IconRef where
  | eye
  | fileText
  | gitPullRequest
  | gitMerge
deriving DecidableEq

/-- A selected project (`interface Project` in the source). -/
structure Project where
  id : String
  github_full_name : String
  status : String
deriving DecidableEq

/-- An issue or pull-request record as consumed by the dashboard.  The source
treats both duck-typed (`any[]`); a PR additionally carries `merged`.
`updated_at` and `last_seen_at` are optional epoch-millisecond timestamps
(a missing field models JS `undefined`/empty). -/
structure RepoRecord where
  github_issue_id : Nat
  github_pr_id : Nat
  number : Nat
  title : String
  comments_count : Option Nat
  state : String
  merged : Bool
  updated_at : Option Int
  last_seen_at : Option Int
  projectName : String
deriving DecidableEq

/-- A stat card (`StatCard` in the source's types). -/
structure StatCard where
  id : Nat
  title : String
  subtitle : String
  value : Nat
  change : Int
  icon : IconRef
deriving DecidableEq

/-- An activity feed entry (`Activity` in the source's types). -/
structure Activity where
  id : Nat
  type : String
  number : Nat
  title : String
  label : Option String
  timeAgo : String
deriving DecidableEq

/-- A chart point (`ChartDataPoint` in the source's types). -/
structure ChartPoint where
  month : String
  applications : Nat
  merged : Nat
deriving DecidableEq

/-- The state the orchestrator (`loadData`) leaves behind. -/
structure LoadState where
  issues : List RepoRecord
  prs : List RepoRecord
  isLoading : Bool
deriving DecidableEq

/-- The three derived collections handed to the presentation layer. -/
structure DashboardOutput where
  stats : List StatCard
  activities : List Activity
  chartData : List ChartPoint
deriving DecidableEq

/-! ## Stable sort model

`Array.prototype.sort` is stable; we model it by a stable insertion sort
over the boolean relation `le a b` meaning "the comparator does not require
`b` to come strictly before `a`" (comparator result `≤ 0`). -/

/-- Insert `a` into `l`, placing `a` before the first element it may precede
(ties keep `a` first, since `a` originates earlier in the input). -/
def insertJS (le : α → α → Bool) (a : α) : List α → List α
  | [] => [a]
  | b :: l => if le a b then a :: b :: l else b :: insertJS le a l

/-- Stable insertion sort modelling the stable `Array.prototype.sort`. -/
def sortJS (le : α → α → Bool) : List α → List α
  | [] => []
  | a :: l => insertJS le a (sortJS le l)

/-! ## Record helpers -/

/-- Effective timestamp: `updated_at` if present, else `last_seen_at`
(matches the `a.updated_at ? ... : ...` probing in the source). -/
def effectiveTs (r : RepoRecord) : Option Int :=
  match r.updated_at with
  | some t => some t
  | none => r.last_seen_at

/-- `issue.comments_count || 0` from the source. -/
def commentsOrZero (r : RepoRecord) : Nat :=
  r.comments_count.getD 0

/-- The sort comparator of `loadData`:
`dateB - dateA` where a record missing both timestamps yields `NaN`
(`new Date(undefined).getTime()`); a `NaN` comparator result is treated as
`0` by `Array.prototype.sort`. -/
def recordCmp (a b : RepoRecord) : Int :=
  match effectiveTs a, effectiveTs b with
  | some x, some y => y - x
  | _, _ => 0

/-- The recency sort applied to the unified collections in `loadData`. -/
def sortRecords (l : List RepoRecord) : List RepoRecord :=
  sortJS (fun a b => decide (recordCmp a b ≤ 0)) l

/-! ## TimeFormatter (`formatTimeAgo` / `parseTimeAgo`)

Decimal rendering of `${n}` template interpolation is modelled by
`natDigits`; `String.prototype.includes` by list-infix containment on the
character data; `parseInt(s) || 0` by reading the leading digit run. -/

/-- Decimal digit characters of `n`, most significant first (the rendering
of `${n}` for a non-negative integer). -/
def natDigits (n : Nat) : List Char :=
  if n < 10 then [Char.ofNat (48 + n)]
  else natDigits (n / 10) ++ [Char.ofNat (48 + n % 10)]
decreasing_by omega

/-- Rendering of `${i}` for a JS integer (sign prepended when negative). -/
def renderInt (i : Int) : List Char :=
  if i < 0 then '-' :: natDigits (-i).toNat else natDigits i.toNat

/-- Numeric value of a digit run (how `parseInt` folds leading digits). -/
def digitsVal (l : List Char) : Nat :=
  l.foldl (fun a c => 10 * a + (c.toNat - 48)) 0

/-- The pluralisation suffix `${n !== 1 ? 's' : ''}`. -/
def pluralS (n : Int) : List Char :=
  if n ≠ 1 then ['s'] else []

/-- The label produced for a record whose effective timestamp is missing:
`new Date(undefined).getTime()` is `NaN`, every branch test on `NaN` is
false, and the final template renders `"NaN months ago"`. -/
def nanLabel : String := "NaN months ago"

/-- Character data of `formatTimeAgo(date)` from the source, for a valid
date `t` and current time `now` (epoch ms).  `Math.floor` of a JS division
by a positive constant is Euclidean division. -/
def formatChars (now t : Int) : List Char :=
  if (now - t) / 60000 < 1 then "just now".data
  else if (now - t) / 60000 < 60 then
    renderInt ((now - t) / 60000) ++ " minute".data
      ++ pluralS ((now - t) / 60000) ++ " ago".data
  else if (now - t) / 3600000 < 24 then
    renderInt ((now - t) / 3600000) ++ " hour".data
      ++ pluralS ((now - t) / 3600000) ++ " ago".data
  else if (now - t) / 86400000 < 30 then
    renderInt ((now - t) / 86400000) ++ " day".data
      ++ pluralS ((now - t) / 86400000) ++ " ago".data
  else
    renderInt ((now - t) / 86400000 / 30) ++ " month".data
      ++ pluralS ((now - t) / 86400000 / 30) ++ " ago".data

/-- `formatTimeAgo` from the source (valid-date case). -/
def formatTimeAgo (now t : Int) : String :=
  String.mk (formatChars now t)

/-- `formatTimeAgo` applied to the effective timestamp as the source does
(`r.updated_at ? format(...) : format(...)`), yielding the `NaN` label when
both timestamp fields are missing. -/
def formatTimeAgoOpt (now : Int) (o : Option Int) : String :=
  match o with
  | some t => formatTimeAgo now t
  | none => nanLabel

/-- `String.prototype.includes`: substring containment. -/
def strIncludes (s sub : String) : Bool :=
  decide (sub.data <:+: s.data)

/-- `parseInt(s) || 0`: value of the leading digit run, `0` when there is
none (`parseInt` returns `NaN` there and `NaN || 0` is `0`). -/
def parseLeadingInt (l : List Char) : Int :=
  if (l.takeWhile Char.isDigit).isEmpty then 0
  else (digitsVal (l.takeWhile Char.isDigit) : Int)

/-- `parseTimeAgo` from the source: recover an approximate timestamp from a
relative-time label by probing for the unit substrings in order. -/
def parseTimeAgo (now : Int) (s : String) : Int :=
  if strIncludes s "minute" then now - parseLeadingInt s.data * 60000
  else if strIncludes s "hour" then now - parseLeadingInt s.data * 3600000
  else if strIncludes s "day" then now - parseLeadingInt s.data * 86400000
  else if strIncludes s "month" then now - parseLeadingInt s.data * 2592000000
  else now

/-- The coarse relative-time bucket of `t` seen from `now`: the unit and
count selected by `formatTimeAgo`'s branch structure. -/
inductive TimeBucket where
  | justNow
  | minutes (n : Int)
  | hours (n : Int)
  | days (n : Int)
  | months (n : Int)
deriving DecidableEq

/-- Bucket classification following `formatTimeAgo`'s branch structure. -/
def timeBucket (now t : Int) : TimeBucket :=
  if (now - t) / 60000 < 1 then .justNow
  else if (now - t) / 60000 < 60 then .minutes ((now - t) / 60000)
  else if (now - t) / 3600000 < 24 then .hours ((now - t) / 3600000)
  else if (now - t) / 86400000 < 30 then .days ((now - t) / 86400000)
  else .months ((now - t) / 86400000 / 30)

/-! ## StatsCalculator (the computed `stats` memo) -/

/-- The 7-day window test used by the computed `stats`:
`updatedAt >= sevenDaysAgo` where `updatedAt` is `updated_at` if present,
else `last_seen_at`, and a record missing both yields an invalid date whose
`NaN` comparison is false.  `sevenDaysAgo = now - 7*24*60*60*1000`. -/
def inRecentWindow (now : Int) (r : RepoRecord) : Bool :=
  match r.updated_at with
  | some t => decide (now - 604800000 ≤ t)
  | none =>
    match r.last_seen_at with
    | some t => decide (now - 604800000 ≤ t)
    | none => false

/-- Sum of `(issue.comments_count || 0)` via `reduce` as in the source. -/
def sumComments (l : List RepoRecord) : Nat :=
  l.foldl (fun s r => s + commentsOrZero r) 0

/-- The computed `stats` memo from the source (lines 106-165). -/
def computeStats (issues prs : List RepoRecord) (now : Int) : List StatCard :=
  let recentIssues := issues.filter (inRecentWindow now)
  let recentPRs := prs.filter (inRecentWindow now)
  let openedPRs := recentPRs.filter (fun pr => pr.state == "open")
  let mergedPRs := recentPRs.filter (fun pr => pr.merged)
  [ { id := 1, title := "Repository Views", subtitle := "Last 7 days",
      value := 0, change := -100, icon := .eye },
    { id := 2, title := "Issue Views", subtitle := "Last 7 days",
      value := recentIssues.length, change := 0, icon := .fileText },
    { id := 3, title := "Issue Applications", subtitle := "Last 7 days",
      value := sumComments recentIssues, change := 0, icon := .fileText },
    { id := 4, title := "Pull Requests Opened", subtitle := "Last 7 days",
      value := openedPRs.length,
      change := if openedPRs.length > 0 then 100 else 0, icon := .gitPullRequest },
    { id := 5, title := "Pull Requests Merged", subtitle := "Last 7 days",
      value := mergedPRs.length,
      change := if mergedPRs.length > 0 then 100 else 0, icon := .gitMerge } ]

/-! ## ActivityFeedBuilder (the computed `activities` memo) -/

/-- The activity entry built for a PR in the computed `activities` memo. -/
def prEntry (now : Int) (pr : RepoRecord) : Activity :=
  { id := pr.github_pr_id
    type := "pr"
    number := pr.number
    title := pr.title
    label := some (if pr.merged then "Merged"
                   else if pr.state == "open" then "Open" else "Closed")
    timeAgo :=
      match pr.updated_at with
      | some t => formatTimeAgo now t
      | none =>
        match pr.last_seen_at with
        | some t => formatTimeAgo now t
        | none => nanLabel }

/-- The activity entry built for an issue in the computed `activities` memo. -/
def issueEntry (now : Int) (issue : RepoRecord) : Activity :=
  { id := issue.github_issue_id
    type := "issue"
    number := issue.number
    title := issue.title
    label :=
      match issue.comments_count with
      | some c =>
        if c > 0 then
          some (String.mk (natDigits c ++ " comment".data ++ (if c ≠ 1 then ['s'] else [])))
        else none
      | none => none
    timeAgo :=
      match issue.updated_at with
      | some t => formatTimeAgo now t
      | none =>
        match issue.last_seen_at with
        | some t => formatTimeAgo now t
        | none => nanLabel }

/-- The descending-by-parsed-time comparator relation used by the
`combined.sort((a, b) => timeB - timeA)` call. -/
def byParsedDesc (now : Int) (a b : Activity) : Bool :=
  decide (parseTimeAgo now b.timeAgo ≤ parseTimeAgo now a.timeAgo)

/-- The computed `activities` memo from the source (lines 168-207): push the
first 10 PRs, then the first 10 issues, stable-sort by parsed relative time
descending, keep the top 5. -/
def computeActivities (issues prs : List RepoRecord) (now : Int) : List Activity :=
  let combined :=
    (prs.take 10).map (prEntry now) ++ (issues.take 10).map (issueEntry now)
  (sortJS (byParsedDesc now) combined).take 5

/-! ## ChartBucketizer (the computed `chartData` memo)

`new Date(year, month, 1).getTime()` is modelled in a fixed-offset (UTC)
calendar: month-index normalisation by floored division, then a civil-date
to epoch-day conversion. -/

/-- Year shifted so that the year starts in March (leap-day last). -/
def shiftedYear (y m : Int) : Int :=
  if m ≤ 2 then y - 1 else y

/-- Day-of-(March-based)-year offset for the first day of 1-based month `m`. -/
def monthDoy (m : Int) : Int :=
  (153 * (m + (if 2 < m then -3 else 9)) + 2) / 5

/-- Epoch-day count contributed by the (March-shifted) year `y`. -/
def yearDays (y : Int) : Int :=
  (y / 400) * 146097 + (y % 400) * 365 + (y % 400) / 4 - (y % 400) / 100

/-- Days from 1970-01-01 to the first of 1-based month `m` of year `y`. -/
def civilDays (y m : Int) : Int :=
  yearDays (shiftedYear y m) + monthDoy m - 719468

/-- `new Date(y, m, 1).getTime()` with JS month-index normalisation
(`m` may be any integer; the year absorbs `m / 12`). -/
def monthStartMs (y m : Int) : Int :=
  86400000 * civilDays (y + m / 12) (m % 12 + 1)

/-- In-bucket test used by the `chartData` filters: effective timestamp in
`[monthDate, nextMonth)`; a record missing both timestamps yields `NaN`
comparisons, hence false. -/
def inMonthRange (lo hi : Int) (r : RepoRecord) : Bool :=
  match r.updated_at with
  | some t => decide (lo ≤ t) && decide (t < hi)
  | none =>
    match r.last_seen_at with
    | some t => decide (lo ≤ t) && decide (t < hi)
    | none => false

/-- The hardcoded month labels of the computed `chartData` memo. -/
def monthsLabels : List String := ["May", "Jun", "Jul", "Aug", "Sep", "Oct"]

/-- The computed `chartData` memo from the source (lines 248-274), as a
function of `now.getFullYear()` and `now.getMonth()`. -/
def computeChartData (issues prs : List RepoRecord) (nowYear nowMonth : Int) :
    List ChartPoint :=
  (List.range 6).map (fun (index : Nat) =>
    let monthDate := monthStartMs nowYear (nowMonth - (5 - (index : Int)))
    let nextMonth := monthStartMs nowYear (nowMonth - (4 - (index : Int)))
    let monthIssues := issues.filter (inMonthRange monthDate nextMonth)
    let monthPRs := prs.filter (inMonthRange monthDate nextMonth)
    let mergedPRs := monthPRs.filter (fun pr => pr.merged)
    { month := monthsLabels.getD index ""
      applications := sumComments monthIssues
      merged := mergedPRs.length })

/-! ## ProjectFetchOrchestrator (`loadData`)

The data-fetching client is an external collaborator: it is passed in as a
function from a project to either a failure or a response whose list field
may be null (`Option`). -/

/-- Records contributed by one project: a caught fetch failure contributes
`[]`, a null/undefined list field (`response.issues || []`) contributes
`[]`, and every returned record is tagged with the project's name. -/
def perProjectRecords (fetch : Project → Except String (Option (List RepoRecord)))
    (p : Project) : List RepoRecord :=
  match fetch p with
  | .error _ => []
  | .ok response =>
    (response.getD []).map (fun r => { r with projectName := p.github_full_name })

/-- `loadData` from the source (lines 32-93): short-circuit on an empty
selection, otherwise fan out per-project fetches, flatten, sort by recency,
and clear the loading flag. -/
def loadData (fetchIssues fetchPRs : Project → Except String (Option (List RepoRecord)))
    (selectedProjects : List Project) : LoadState :=
  if selectedProjects.length = 0 then
    { issues := [], prs := [], isLoading := false }
  else
    let allIssues := (selectedProjects.map (perProjectRecords fetchIssues)).flatten
    let allPRs := (selectedProjects.map (perProjectRecords fetchPRs)).flatten
    { issues := sortRecords allIssues
      prs := sortRecords allPRs
      isLoading := false }

/-! ## The mock re-declarations (source lines 276-371) -/

/-- The fixed mock `stats` re-declaration (lines 276-317). -/
def mockStats : List StatCard :=
  [ { id := 1, title := "Repository Views", subtitle := "Last 7 days",
      value := 0, change := -100, icon := .eye },
    { id := 2, title := "Issue Views", subtitle := "Last 7 days",
      value := 0, change := -100, icon := .fileText },
    { id := 3, title := "Issue Applications", subtitle := "Last 7 days",
      value := 0, change := 0, icon := .fileText },
    { id := 4, title := "Pull Requests Opened", subtitle := "Last 7 days",
      value := 1, change := 100, icon := .gitPullRequest },
    { id := 5, title := "Pull Requests Merged", subtitle := "Last 7 days",
      value := 1, change := 100, icon := .gitMerge } ]

/-- The fixed mock `activities` re-declaration (lines 320-361). -/
def mockActivities : List Activity :=
  [ { id := 1, type := "pr", number := 734,
      title := "Fix React Server Components CVE vulnerabilities",
      label := none, timeAgo := "2 days ago" },
    { id := 2, type := "issue", number := 77,
      title := "Add Invoice Expiration and Auto-Processing",
      label := some "1 new applicant", timeAgo := "3 months ago" },
    { id := 3, type := "pr", number := 120,
      title := "Clean Up Cargo Build Warnings #50",
      label := none, timeAgo := "3 months ago" },
    { id := 4, type := "pr", number := 119,
      title := "Add Investor KYC and Verification System",
      label := none, timeAgo := "3 months ago" },
    { id := 5, type := "issue", number := 158,
      title := "Feat: Add Comprehensive Error Recovery and Circuit Breaker Patterns (#110)",
      label := none, timeAgo := "5 months ago" } ]

/-- The fixed mock `chartData` re-declaration (lines 364-371). -/
def mockChartData : List ChartPoint :=
  [ { month := "May", applications := 12, merged := 0 },
    { month := "Jun", applications := 18, merged := 0 },
    { month := "Jul", applications := 45, merged := 0 },
    { month := "Aug", applications := 32, merged := 0 },
    { month := "Sep", applications := 38, merged := 8 },
    { month := "Oct", applications := 28, merged := 12 } ]

set_option linter.unusedVariables false in
/-- The values that reach rendering: the component body first computes the
real `stats`/`activities`/`chartData`, then re-declares identically named
fixed mock values; the later bindings shadow the earlier ones, so the JSX
reads the mocks (source lines 106-274 versus 276-371). -/
def renderDashboard (issues prs : List RepoRecord) (now nowYear nowMonth : Int) :
    DashboardOutput :=
  let stats := computeStats issues prs now
  let activities := computeActivities issues prs now
  let chartData := computeChartData issues prs nowYear nowMonth
  let stats := mockStats
  let activities := mockActivities
  let chartData := mockChartData
  { stats := stats, activities := activities, chartData := chartData }

/-- Modelled from the spec: the "short calendar-month label" for a JS month
index (0 = January, ..., 11 = December).  The source file hardcodes only the
six labels May..Oct, so the full mapping needed to state what label the
trailing months would carry is taken from the spec's wording. -/
def monthShortLabel (k : Int) : String :=
  if k = 0 then "Jan" else if k = 1 then "Feb" else if k = 2 then "Mar"
  else if k = 3 then "Apr" else if k = 4 then "May" else if k = 5 then "Jun"
  else if k = 6 then "Jul" else if k = 7 then "Aug" else if k = 8 then "Sep"
  else if k = 9 then "Oct" else if k = 10 then "Nov" else "Dec"

/-! ## Shared lemmas -/

/-- `sumComments` with an explicit accumulator. -/
theorem sumComments_foldl (l : List RepoRecord) (a : Nat) :
    l.foldl (fun s r => s + commentsOrZero r) a = a + sumComments l := by
  induction l generalizing a with
  | nil => simp [sumComments]
  | cons r l ih =>
    simp only [List.foldl_cons, sumComments]
    rw [ih, ih (0 + commentsOrZero r)]
    omega

/-- `sumComments` as a mapped sum. -/
theorem sumComments_eq_map_sum (l : List RepoRecord) :
    sumComments l = (l.map commentsOrZero).sum := by
  induction l with
  | nil => rfl
  | cons r l ih =>
    rw [sumComments, List.foldl_cons, sumComments_foldl, ih]
    simp

/-- `effectiveTs` is absent exactly when both timestamp fields are absent. -/
theorem effectiveTs_eq_none (r : RepoRecord) :
    effectiveTs r = none ↔ r.updated_at = none ∧ r.last_seen_at = none := by
  unfold effectiveTs
  cases r.updated_at <;> simp

/-- `inRecentWindow` depends only on the effective timestamp. -/
theorem inRecentWindow_eq (now : Int) (r : RepoRecord) :
    inRecentWindow now r =
      match effectiveTs r with
      | some t => decide (now - 604800000 ≤ t)
      | none => false := by
  unfold inRecentWindow effectiveTs
  cases r.updated_at <;> cases r.last_seen_at <;> rfl

/-- `inMonthRange` depends only on the effective timestamp. -/
theorem inMonthRange_eq (lo hi : Int) (r : RepoRecord) :
    inMonthRange lo hi r =
      match effectiveTs r with
      | some t => decide (lo ≤ t) && decide (t < hi)
      | none => false := by
  unfold inMonthRange effectiveTs
  cases r.updated_at <;> cases r.last_seen_at <;> rfl

/-! ## C1 -/

/-- C1: for every input, the values that reach rendering are the fixed mock
declarations, which shadow and fully replace the computed `stats`,
`activities` and `chartData`; and the computed pipeline genuinely differs
from the mocks (witnessed on the empty input), so the computed aggregation
results never reach the rendered output. -/
theorem c1_mocks_shadow_computed (issues prs : List RepoRecord)
    (now nowYear nowMonth : Int) :
    renderDashboard issues prs now nowYear nowMonth =
      { stats := mockStats, activities := mockActivities, chartData := mockChartData }
    ∧ computeStats [] [] 0 ≠ mockStats :=
  ⟨rfl, by decide⟩

/-! ## C2 -/

/-- A record whose effective timestamp is exactly the evaluation time. -/
def recordAtNow : RepoRecord :=
  { github_issue_id := 1, github_pr_id := 0, number := 1, title := "i",
    comments_count := some 0, state := "open", merged := false,
    updated_at := some 1700000000000, last_seen_at := none,
    projectName := "org/repo" }

/-- C2 counterexample: with `now = 1700000000000`, a record whose effective
timestamp is exactly `now` is counted by the 7-day filter although it does
not lie in `[now - 7 days, now)` — the window has no upper bound. -/
theorem c2_counterexample :
    ¬ ((inRecentWindow 1700000000000 recordAtNow = true) ↔
      ((1700000000000 : Int) - 604800000 ≤ 1700000000000 ∧
        (1700000000000 : Int) < 1700000000000)) := by
  decide

/-- C2 (amended): a record with effective timestamp `t` is counted toward
the 7-day metrics iff `now - 7 days ≤ t`; the lower bound is inclusive and
there is no upper bound. -/
theorem c2_amended_window (now : Int) (r : RepoRecord) (t : Int)
    (h : effectiveTs r = some t) :
    inRecentWindow now r = true ↔ now - 604800000 ≤ t := by
  rw [inRecentWindow_eq, h]
  simp

/-- A record whose effective timestamp is exactly `now - 7 days`. -/
def recordAtBoundary : RepoRecord :=
  { github_issue_id := 2, github_pr_id := 0, number := 2, title := "b",
    comments_count := some 1, state := "open", merged := false,
    updated_at := some 1699395200000, last_seen_at := none,
    projectName := "org/repo" }

/-- C2 witness: the amended window law evaluated at the lower boundary. -/
theorem c2_amended_window_witness :
    inRecentWindow 1700000000000 recordAtBoundary = true ↔
      (1700000000000 : Int) - 604800000 ≤ 1699395200000 :=
  c2_amended_window 1700000000000 recordAtBoundary 1699395200000 rfl

/-! ## C3 -/

/-- A record missing both `updated_at` and `last_seen_at`. -/
def recordNoTs : RepoRecord :=
  { github_issue_id := 7, github_pr_id := 0, number := 7, title := "n",
    comments_count := none, state := "open", merged := false,
    updated_at := none, last_seen_at := none, projectName := "org/repo" }

/-- A record with an old timestamp. -/
def recordOld : RepoRecord :=
  { github_issue_id := 8, github_pr_id := 0, number := 8, title := "o",
    comments_count := some 2, state := "open", merged := false,
    updated_at := some 0, last_seen_at := none, projectName := "org/repo" }

/-- C3 counterexample: sorting a collection whose first record has neither
timestamp leaves that record first, not last — the comparator yields `NaN`,
treated as a tie, so the stable sort keeps the original position. -/
theorem c3_counterexample :
    (sortRecords [recordNoTs, recordOld]).getLast? = some recordOld ∧
      recordOld ≠ recordNoTs := by
  decide

/-- Inserting an element that ties with everything keeps it first. -/
theorem insertJS_of_always_le (le : α → α → Bool) (a : α)
    (h : ∀ x, le a x = true) : ∀ l, insertJS le a l = a :: l := by
  intro l
  cases l with
  | nil => rfl
  | cons b l => simp [insertJS, h b]

/-- C3 (amended): a record with neither timestamp field does not crash the
pipeline — it is simply excluded by the 7-day and month-bucket filters —
and the recency sort treats it as tying with every record, so the stable
sort leaves it in its original relative position (in particular a leading
such record stays first, not last). -/
theorem c3_amended_unknown_ties (r : RepoRecord) (h : effectiveTs r = none) :
    (∀ s, recordCmp r s = 0 ∧ recordCmp s r = 0)
    ∧ (∀ now, inRecentWindow now r = false)
    ∧ (∀ lo hi, inMonthRange lo hi r = false)
    ∧ (∀ l, sortRecords (r :: l) = r :: sortRecords l) := by
  refine ⟨?_, ?_, ?_, ?_⟩
  · intro s
    have h1 : recordCmp r s = 0 := by unfold recordCmp; rw [h]
    have h2 : recordCmp s r = 0 := by
      unfold recordCmp
      rw [h]
      cases hs : effectiveTs s <;> rfl
    exact ⟨h1, h2⟩
  · intro now
    rw [inRecentWindow_eq, h]
  · intro lo hi
    rw [inMonthRange_eq, h]
  · intro l
    have hle : ∀ x, (fun a b => decide (recordCmp a b ≤ 0)) r x = true := by
      intro x
      have hc : recordCmp r x = 0 := by unfold recordCmp; rw [h]
      simp [hc]
    exact insertJS_of_always_le _ r hle (sortJS _ l)

/-- C3 witness: the amended behaviour evaluated on concrete records. -/
theorem c3_amended_witness :
    recordCmp recordNoTs recordOld = 0 ∧ inRecentWindow 0 recordNoTs = false :=
  ⟨((c3_amended_unknown_ties recordNoTs rfl).1 recordOld).1,
    (c3_amended_unknown_ties recordNoTs rfl).2.1 0⟩

/-! ## C4 -/

/-- C4: `computeStats` yields exactly 5 metrics in the fixed order, with the
Repository Views placeholder (value 0, negative change), the in-window issue
count, the in-window comment sum, the in-window open-PR count and the
in-window merged-PR count. -/
theorem c4_stats_shape (issues prs : List RepoRecord) (now : Int) :
    (computeStats issues prs now).length = 5
    ∧ (computeStats issues prs now).map (fun c => c.title) =
        ["Repository Views", "Issue Views", "Issue Applications",
          "Pull Requests Opened", "Pull Requests Merged"]
    ∧ (computeStats issues prs now)[0]? =
        some { id := 1, title := "Repository Views", subtitle := "Last 7 days",
               value := 0, change := -100, icon := .eye }
    ∧ ((computeStats issues prs now)[1]?).map (fun c => c.value) =
        some (issues.filter (inRecentWindow now)).length
    ∧ ((computeStats issues prs now)[2]?).map (fun c => c.value) =
        some ((issues.filter (inRecentWindow now)).map commentsOrZero).sum
    ∧ ((computeStats issues prs now)[3]?).map (fun c => c.value) =
        some (((prs.filter (inRecentWindow now)).filter
                (fun pr => pr.state == "open")).length)
    ∧ ((computeStats issues prs now)[4]?).map (fun c => c.value) =
        some (((prs.filter (inRecentWindow now)).filter
                (fun pr => pr.merged)).length) := by
  refine ⟨rfl, rfl, rfl, rfl, ?_, rfl, rfl⟩
  show some (sumComments (issues.filter (inRecentWindow now))) = _
  rw [sumComments_eq_map_sum]

/-! ## C8 and C10: fetch-failure and null-field isolation in `loadData` -/

/-- `loadData` always ends with the loading flag cleared. -/
theorem loadData_isLoading (fetchIssues fetchPRs :
    Project → Except String (Option (List RepoRecord)))
    (selectedProjects : List Project) :
    (loadData fetchIssues fetchPRs selectedProjects).isLoading = false := by
  unfold loadData
  split <;> rfl

/-- A project whose fetch result is replaced by another result yielding the
same record list contributes identically to `loadData`. -/
theorem loadData_congr_project (fetchIssues fetchPRs :
    Project → Except String (Option (List RepoRecord)))
    (selectedProjects : List Project) (p0 : Project)
    (res : Except String (Option (List RepoRecord)))
    (h : perProjectRecords fetchIssues p0 =
      perProjectRecords (Function.update fetchIssues p0 res) p0) :
    loadData fetchIssues fetchPRs selectedProjects =
      loadData (Function.update fetchIssues p0 res) fetchPRs selectedProjects := by
  unfold loadData
  split
  · rfl
  · have hmap : selectedProjects.map (perProjectRecords fetchIssues) =
        selectedProjects.map (perProjectRecords (Function.update fetchIssues p0 res)) := by
      refine List.map_congr_left (fun p _ => ?_)
      by_cases hp : p = p0
      · subst hp; exact h
      · unfold perProjectRecords
        rw [Function.update_noteq hp]
    rw [hmap]

/-- Same congruence for the PR side. -/
theorem loadData_congr_project_prs (fetchIssues fetchPRs :
    Project → Except String (Option (List RepoRecord)))
    (selectedProjects : List Project) (p0 : Project)
    (res : Except String (Option (List RepoRecord)))
    (h : perProjectRecords fetchPRs p0 =
      perProjectRecords (Function.update fetchPRs p0 res) p0) :
    loadData fetchIssues fetchPRs selectedProjects =
      loadData fetchIssues (Function.update fetchPRs p0 res) selectedProjects := by
  unfold loadData
  split
  · rfl
  · have hmap : selectedProjects.map (perProjectRecords fetchPRs) =
        selectedProjects.map (perProjectRecords (Function.update fetchPRs p0 res)) := by
      refine List.map_congr_left (fun p _ => ?_)
      by_cases hp : p = p0
      · subst hp; exact h
      · unfold perProjectRecords
        rw [Function.update_noteq hp]
    rw [hmap]

/-- C8: for a non-empty selection, a fetch failure for one project's issues
(or PRs) is caught and is equivalent to that project having returned an
empty list, leaving every other project's contribution (and that project's
other fetch) untouched, and the cycle completes with `isLoading = false`. -/
theorem c8_fetch_failure_isolated (fetchIssues fetchPRs :
    Project → Except String (Option (List RepoRecord)))
    (selectedProjects : List Project) (p0 : Project)
    (_hne : selectedProjects ≠ []) :
    (∀ e, fetchIssues p0 = .error e →
      loadData fetchIssues fetchPRs selectedProjects =
        loadData (Function.update fetchIssues p0 (.ok (some [])))
          fetchPRs selectedProjects)
    ∧ (∀ e, fetchPRs p0 = .error e →
      loadData fetchIssues fetchPRs selectedProjects =
        loadData fetchIssues
          (Function.update fetchPRs p0 (.ok (some []))) selectedProjects)
    ∧ (loadData fetchIssues fetchPRs selectedProjects).isLoading = false := by
  refine ⟨fun e he => ?_, fun e he => ?_, loadData_isLoading _ _ _⟩
  · refine loadData_congr_project _ _ _ _ _ ?_
    unfold perProjectRecords
    rw [he, Function.update_same]
    rfl
  · refine loadData_congr_project_prs _ _ _ _ _ ?_
    unfold perProjectRecords
    rw [he, Function.update_same]
    rfl

/-- A concrete project used by the orchestrator witnesses. -/
def projectExample : Project :=
  { id := "p1", github_full_name := "org/repo", status := "active" }

/-- C8 witness: with a single selected project whose issue fetch fails, the
cycle result equals the empty-contribution result. -/
theorem c8_fetch_failure_isolated_witness :
    loadData (fun _ => .error "netfail") (fun _ => .ok (some [])) [projectExample] =
      loadData (Function.update (fun _ => .error "netfail") projectExample
        (.ok (some []))) (fun _ => .ok (some [])) [projectExample] :=
  (c8_fetch_failure_isolated (fun _ => .error "netfail") (fun _ => .ok (some []))
    [projectExample] projectExample (List.cons_ne_nil _ _)).1 "netfail" rfl

/-- C10: a successfully resolving fetch whose response has a null/undefined
list field is treated as an empty list for that project only
(`response.issues || []`), never failing the cycle. -/
theorem c10_null_field_isolated (fetchIssues fetchPRs :
    Project → Except String (Option (List RepoRecord)))
    (selectedProjects : List Project) (p0 : Project) :
    (fetchIssues p0 = .ok none →
      loadData fetchIssues fetchPRs selectedProjects =
        loadData (Function.update fetchIssues p0 (.ok (some [])))
          fetchPRs selectedProjects)
    ∧ (fetchPRs p0 = .ok none →
      loadData fetchIssues fetchPRs selectedProjects =
        loadData fetchIssues
          (Function.update fetchPRs p0 (.ok (some []))) selectedProjects)
    ∧ (loadData fetchIssues fetchPRs selectedProjects).isLoading = false := by
  refine ⟨fun he => ?_, fun he => ?_, loadData_isLoading _ _ _⟩
  · refine loadData_congr_project _ _ _ _ _ ?_
    unfold perProjectRecords
    rw [he, Function.update_same]
    rfl
  · refine loadData_congr_project_prs _ _ _ _ _ ?_
    unfold perProjectRecords
    rw [he, Function.update_same]
    rfl

/-- C10 witness: a null `issues` field behaves as an empty list. -/
theorem c10_null_field_isolated_witness :
    loadData (fun _ => .ok none) (fun _ => .ok (some [])) [projectExample] =
      loadData (Function.update (fun _ => .ok none) projectExample
        (.ok (some []))) (fun _ => .ok (some [])) [projectExample] :=
  (c10_null_field_isolated (fun _ => .ok none) (fun _ => .ok (some []))
    [projectExample] projectExample).1 rfl

/-! ## C5 -/

/-- Following the spec's words: the ActivityEntry for a PR, with the label
chosen from `merged` then `state` and the relative-time label obtained by
formatting the effective timestamp. -/
def specPrEntry (now : Int) (pr : RepoRecord) : Activity :=
  { id := pr.github_pr_id
    type := "pr"
    number := pr.number
    title := pr.title
    label := some (if pr.merged then "Merged"
                   else if pr.state == "open" then "Open" else "Closed")
    timeAgo := formatTimeAgoOpt now (effectiveTs pr) }

/-- Following the spec's words: the ActivityEntry for an issue, labelled
`"{n} comment(s)"` when the comment count is positive and unlabelled
otherwise, with the relative-time label from the effective timestamp. -/
def specIssueEntry (now : Int) (issue : RepoRecord) : Activity :=
  { id := issue.github_issue_id
    type := "issue"
    number := issue.number
    title := issue.title
    label :=
      if 0 < commentsOrZero issue then
        some (String.mk (natDigits (commentsOrZero issue) ++ " comment".data ++
          (if commentsOrZero issue ≠ 1 then ['s'] else [])))
      else none
    timeAgo := formatTimeAgoOpt now (effectiveTs issue) }

/-- C5: the computed activity feed equals the spec's description — map the
first 10 PRs and first 10 issues to entries, merge, stable-sort descending
by the timestamp recovered from parsing the relative-time label, truncate
to 5 — and it never exceeds 5 entries. -/
theorem c5_activities_pipeline (issues prs : List RepoRecord) (now : Int) :
    computeActivities issues prs now =
      (sortJS (byParsedDesc now)
        ((prs.take 10).map (specPrEntry now) ++
          (issues.take 10).map (specIssueEntry now))).take 5
    ∧ (computeActivities issues prs now).length ≤ 5 := by
  constructor
  · have hpr : ∀ r : RepoRecord, prEntry now r = specPrEntry now r := by
      intro r
      unfold prEntry specPrEntry formatTimeAgoOpt effectiveTs
      cases r.updated_at <;> cases r.last_seen_at <;> rfl
    have hiss : ∀ r : RepoRecord, issueEntry now r = specIssueEntry now r := by
      intro r
      unfold issueEntry specIssueEntry formatTimeAgoOpt effectiveTs commentsOrZero
      cases hc : r.comments_count <;> cases r.updated_at <;>
        cases r.last_seen_at <;> simp [hc]
    unfold computeActivities
    rw [List.map_congr_left (fun r _ => hpr r),
      List.map_congr_left (fun r _ => hiss r)]
  · have h : (computeActivities issues prs now).length =
        min 5 ((sortJS (byParsedDesc now)
          ((prs.take 10).map (prEntry now) ++
            (issues.take 10).map (issueEntry now))).length) := by
      unfold computeActivities
      exact List.length_take 5 _
    omega

/-! ## Calendar monotonicity (for C6 and C7) -/

/-- The first of consecutive months within the March-based year come in
strictly increasing epoch-day order, for 1-based months 1..11. -/
theorem civilDays_lt_next_month (y k : Int) (h1 : 1 ≤ k) (h2 : k ≤ 11) :
    civilDays y k < civilDays y (k + 1) := by
  unfold civilDays yearDays shiftedYear monthDoy
  interval_cases k <;> (norm_num; try omega)

/-- December to January of the next year is also strictly increasing. -/
theorem civilDays_lt_jan (y : Int) :
    civilDays y 12 < civilDays (y + 1) 1 := by
  unfold civilDays yearDays shiftedYear monthDoy
  norm_num

/-- The first of month `m + 1` strictly follows the first of month `m`
(with JS month-index normalisation), for every year and month index. -/
theorem monthStartMs_lt_succ (y m : Int) :
    monthStartMs y m < monthStartMs y (m + 1) := by
  unfold monthStartMs
  rcases lt_or_ge (m % 12) 11 with hk | hk
  · have h1 : (m + 1) / 12 = m / 12 := by omega
    have h2 : (m + 1) % 12 = m % 12 + 1 := by omega
    rw [h1, h2]
    have := civilDays_lt_next_month (y + m / 12) (m % 12 + 1) (by omega) (by omega)
    omega
  · have hk12 : m % 12 = 11 := by omega
    have h1 : (m + 1) / 12 = m / 12 + 1 := by omega
    have h2 : (m + 1) % 12 = 0 := by omega
    rw [h1, h2, hk12]
    have h3 : y + (m / 12 + 1) = (y + m / 12) + 1 := by ring
    rw [h3]
    have := civilDays_lt_jan (y + m / 12)
    norm_num
    omega

/-! ## C6 -/

/-- `sumComments` over a cons. -/
theorem sumComments_cons (r : RepoRecord) (l : List RepoRecord) :
    sumComments (r :: l) = commentsOrZero r + sumComments l := by
  show List.foldl _ 0 (r :: l) = _
  rw [List.foldl_cons, sumComments_foldl]
  omega

/-- The contribution of the head record to a filtered comment sum. -/
theorem sumComments_filter_cons (p : RepoRecord → Bool) (r : RepoRecord)
    (l : List RepoRecord) :
    sumComments ((r :: l).filter p) =
      (if p r then commentsOrZero r else 0) + sumComments (l.filter p) := by
  rw [List.filter_cons]
  split
  · rw [sumComments_cons]
  · omega

/-- One record's contributions to six adjacent month buckets collapse to its
contribution to the full span. -/
theorem bucket_collapse (r : RepoRecord) (b0 b1 b2 b3 b4 b5 b6 : Int)
    (h01 : b0 ≤ b1) (h12 : b1 ≤ b2) (h23 : b2 ≤ b3) (h34 : b3 ≤ b4)
    (h45 : b4 ≤ b5) (h56 : b5 ≤ b6) :
    (if inMonthRange b0 b1 r then commentsOrZero r else 0)
    + (if inMonthRange b1 b2 r then commentsOrZero r else 0)
    + (if inMonthRange b2 b3 r then commentsOrZero r else 0)
    + (if inMonthRange b3 b4 r then commentsOrZero r else 0)
    + (if inMonthRange b4 b5 r then commentsOrZero r else 0)
    + (if inMonthRange b5 b6 r then commentsOrZero r else 0)
    = (if inMonthRange b0 b6 r then commentsOrZero r else 0) := by
  cases ht : effectiveTs r with
  | none => simp [inMonthRange_eq, ht]
  | some t =>
    simp only [inMonthRange_eq, ht, Bool.and_eq_true, decide_eq_true_eq]
    split_ifs <;> omega

/-- C6: summing `applications` across the 6 chart points equals the sum of
`comments_count` over all issues whose effective timestamp falls in the full
6-month span — the per-month buckets neither overlap nor leave gaps. -/
theorem c6_chart_applications_total (issues prs : List RepoRecord) (Y M : Int) :
    ((computeChartData issues prs Y M).map (fun p => p.applications)).sum =
      ((issues.filter (inMonthRange (monthStartMs Y (M - 5))
        (monthStartMs Y (M + 1)))).map commentsOrZero).sum := by
  rw [← sumComments_eq_map_sum]
  unfold computeChartData
  rw [show List.range 6 = [0, 1, 2, 3, 4, 5] from by decide]
  simp only [List.map_cons, List.map_nil, List.sum_cons, List.sum_nil,
    Nat.cast_ofNat, Nat.cast_one, Nat.cast_zero]
  norm_num
  have h0 := monthStartMs_lt_succ Y (M - 5)
  have h1 := monthStartMs_lt_succ Y (M - 4)
  have h2 := monthStartMs_lt_succ Y (M - 3)
  have h3 := monthStartMs_lt_succ Y (M - 2)
  have h4 := monthStartMs_lt_succ Y (M - 1)
  have h5 := monthStartMs_lt_succ Y M
  rw [show M - 5 + 1 = M - 4 from by ring] at h0
  rw [show M - 4 + 1 = M - 3 from by ring] at h1
  rw [show M - 3 + 1 = M - 2 from by ring] at h2
  rw [show M - 2 + 1 = M - 1 from by ring] at h3
  rw [show M - 1 + 1 = M from by ring] at h4
  induction issues with
  | nil => rfl
  | cons r l ih =>
    simp only [sumComments_filter_cons]
    have hc := bucket_collapse r (monthStartMs Y (M - 5)) (monthStartMs Y (M - 4))
      (monthStartMs Y (M - 3)) (monthStartMs Y (M - 2)) (monthStartMs Y (M - 1))
      (monthStartMs Y M) (monthStartMs Y (M + 1))
      (le_of_lt h0) (le_of_lt h1) (le_of_lt h2) (le_of_lt h3) (le_of_lt h4)
      (le_of_lt h5)
    omega

/-! ## C7 -/

/-- C7 counterexample: with evaluation time in January 2024 (`year 2024`,
month index 0), the chart labels are still the hardcoded May..Oct and do not
name the trailing 6 calendar months (Aug, Sep, Oct, Nov, Dec, Jan). -/
theorem c7_counterexample :
    ¬ ((computeChartData [] [] 2024 0).map (fun p => p.month) =
      (List.range 6).map (fun i => monthShortLabel ((0 - 5 + (i : Int)) % 12))) := by
  decide

/-- C7 (amended): `computeChartData` always yields exactly 6 points whose
buckets are the trailing 6 calendar months computed from `now`'s year and
month (strictly increasing, hence chronological and without overlap), but
whose labels are the fixed strings May..Oct regardless of `now`. -/
theorem c7_amended_chart_shape (issues prs : List RepoRecord) (Y M : Int) :
    (computeChartData issues prs Y M).length = 6
    ∧ (computeChartData issues prs Y M).map (fun p => p.month) =
        ["May", "Jun", "Jul", "Aug", "Sep", "Oct"]
    ∧ (∀ i : Fin 6, (computeChartData issues prs Y M)[(i : Nat)]? =
        some { month := monthsLabels.getD (i : Nat) ""
               applications := ((issues.filter (inMonthRange
                   (monthStartMs Y (M - 5 + (i : Nat)))
                   (monthStartMs Y (M - 5 + (i : Nat) + 1)))).map
                     commentsOrZero).sum
               merged := (((prs.filter (inMonthRange
                   (monthStartMs Y (M - 5 + (i : Nat)))
                   (monthStartMs Y (M - 5 + (i : Nat) + 1)))).filter
                     (fun pr => pr.merged)).length) })
    ∧ (∀ i : Fin 6, monthStartMs Y (M - 5 + (i : Nat)) <
        monthStartMs Y (M - 5 + (i : Nat) + 1)) := by
  refine ⟨?_, ?_, ?_, ?_⟩
  · simp [computeChartData]
  · rfl
  · intro i
    fin_cases i <;>
      · unfold computeChartData
        rw [show List.range 6 = [0, 1, 2, 3, 4, 5] from by decide]
        norm_num [sumComments_eq_map_sum]
        try (ring_nf; exact ⟨trivial, trivial⟩)
  · intro i
    exact monthStartMs_lt_succ Y (M - 5 + (i : Nat))

/-! ## C9: digit-string lemmas -/

/-- A decimal digit character is a digit. -/
theorem charOfDigit_isDigit (k : Nat) (h : k < 10) :
    (Char.ofNat (48 + k)).isDigit = true := by
  interval_cases k <;> decide

/-- Code point of a decimal digit character. -/
theorem charOfDigit_toNat (k : Nat) (h : k < 10) :
    (Char.ofNat (48 + k)).toNat = 48 + k := by
  interval_cases k <;> decide

/-- Every character of a rendered number is a digit. -/
theorem natDigits_all_digit (n : Nat) : ∀ c ∈ natDigits n, c.isDigit = true := by
  induction n using Nat.strong_induction_on with
  | _ n ih =>
    rw [natDigits]
    split
    · next h =>
      intro c hc
      simp only [List.mem_singleton] at hc
      subst hc
      exact charOfDigit_isDigit n h
    · next h =>
      intro c hc
      rw [List.mem_append] at hc
      rcases hc with hc | hc
      · exact ih (n / 10) (by omega) c hc
      · simp only [List.mem_singleton] at hc
        subst hc
        exact charOfDigit_isDigit (n % 10) (by omega)

/-- A rendered number is never the empty string. -/
theorem natDigits_ne_nil (n : Nat) : natDigits n ≠ [] := by
  rw [natDigits]
  split <;> simp

/-- `digitsVal` of a snoc. -/
theorem digitsVal_snoc (l : List Char) (c : Char) :
    digitsVal (l ++ [c]) = 10 * digitsVal l + (c.toNat - 48) := by
  simp [digitsVal, List.foldl_append]

/-- Parsing back the rendered digits of `n` recovers `n`. -/
theorem digitsVal_natDigits (n : Nat) : digitsVal (natDigits n) = n := by
  induction n using Nat.strong_induction_on with
  | _ n ih =>
    rw [natDigits]
    split
    · next h =>
      simp only [digitsVal, List.foldl_cons, List.foldl_nil]
      rw [charOfDigit_toNat n h]
      omega
    · next h =>
      rw [digitsVal_snoc, ih (n / 10) (by omega), charOfDigit_toNat (n % 10) (by omega)]
      omega

/-- `takeWhile` passes over a block that satisfies the predicate. -/
theorem takeWhile_append_all (p : Char → Bool) (l₁ l₂ : List Char)
    (h : ∀ c ∈ l₁, p c = true) :
    (l₁ ++ l₂).takeWhile p = l₁ ++ l₂.takeWhile p := by
  induction l₁ with
  | nil => simp
  | cons a l ih =>
    simp only [List.cons_append, List.takeWhile_cons]
    rw [h a (List.mem_cons_self a l)]
    simp only [if_true]
    rw [ih (fun c hc => h c (List.mem_cons_of_mem a hc))]

/-- `parseInt` reads exactly the rendered digits when a space follows. -/
theorem parseLeadingInt_natDigits_space (m : Nat) (rest : List Char) :
    parseLeadingInt (natDigits m ++ ' ' :: rest) = (m : Int) := by
  unfold parseLeadingInt
  rw [takeWhile_append_all Char.isDigit (natDigits m) (' ' :: rest)
    (natDigits_all_digit m)]
  have h1 : (' ' :: rest).takeWhile Char.isDigit = [] := by
    rw [List.takeWhile_cons]
    simp
  rw [h1, List.append_nil]
  have h2 : (natDigits m).isEmpty = false := by
    cases hh : natDigits m with
    | nil => exact absurd hh (natDigits_ne_nil m)
    | cons a l => rfl
  rw [h2]
  simp [digitsVal_natDigits]

/-! ## C9: substring lemmas -/

/-- A substring occurrence survives prepending material. -/
theorem isInfix_append_left (u t d : List Char) (h : u <:+: t) :
    u <:+: d ++ t := by
  obtain ⟨s, t2, hst⟩ := h
  exact ⟨d ++ s, t2, by rw [← hst]; simp [List.append_assoc]⟩

/-- `u` occurs in `d ++ c :: (u ++ z)` right after the marker `c`. -/
theorem isInfix_cons_middle (u d z : List Char) (c : Char) :
    u <:+: d ++ c :: (u ++ z) :=
  ⟨d ++ [c], z, by simp [List.append_assoc]⟩

/-- A pattern that does not start with a digit and occurs after an all-digit
block already occurs past the block. -/
theorem isInfix_of_digits_append (u d t : List Char)
    (hd : ∀ c ∈ d, c.isDigit = true)
    (hu : ∀ c, u.head? = some c → c.isDigit = false)
    (h : u <:+: d ++ t) : u <:+: t := by
  induction d with
  | nil => simpa using h
  | cons a d ih =>
    obtain ⟨s, t2, hst⟩ := h
    cases s with
    | nil =>
      cases u with
      | nil => exact ⟨[], t, by simp⟩
      | cons c l =>
        have hc : c = a := by
          have := congrArg List.head? hst
          simpa using this
        have h1 : c.isDigit = false := hu c rfl
        have h2 : a.isDigit = true := hd a (List.mem_cons_self a d)
        rw [hc, h2] at h1
        cases h1
    | cons b s' =>
      have hst' : s' ++ u ++ t2 = d ++ t := by
        have := congrArg List.tail hst
        simpa using this
      exact ih (fun c hc => hd c (List.mem_cons_of_mem a hc)) ⟨s', t2, hst'⟩

/-- The complement form: no occurrence past the digit block means no
occurrence at all. -/
theorem not_isInfix_digits_append (u : List Char) (m : Nat) (t : List Char)
    (hu : ∀ c, u.head? = some c → c.isDigit = false)
    (h : ¬ (u <:+: t)) : ¬ (u <:+: natDigits m ++ t) :=
  fun hin => h (isInfix_of_digits_append u (natDigits m) t
    (natDigits_all_digit m) hu hin)

/-- Heads of the unit patterns are letters, not digits. -/
theorem unit_head_not_digit (u : String) (c0 : Char)
    (h0 : u.data.head? = some c0) (hd : c0.isDigit = false) :
    ∀ c, u.data.head? = some c → c.isDigit = false := by
  intro c hc
  rw [h0] at hc
  injection hc with h
  subst h
  exact hd

/-- `strIncludes` over explicit character data, positive form. -/
theorem strIncludes_true_of (l : List Char) (u : String)
    (h : u.data <:+: l) : strIncludes (String.mk l) u = true :=
  decide_eq_true h

/-- `strIncludes` over explicit character data, negative form. -/
theorem strIncludes_false_of (l : List Char) (u : String)
    (h : ¬ (u.data <:+: l)) : strIncludes (String.mk l) u = false :=
  decide_eq_false h

/-! ## C9: parsing each produced label -/

/-- Parsing a minutes label recovers `now - n` minutes. -/
theorem parseTimeAgo_minute_label (now n : Int) (hn : 1 ≤ n) :
    parseTimeAgo now (String.mk (renderInt n ++ " minute".data ++ pluralS n ++
      " ago".data)) = now - n * 60000 := by
  have hren : renderInt n = natDigits n.toNat := by
    unfold renderInt
    rw [if_neg (by omega : ¬ n < 0)]
  have hcast : ((n.toNat : Nat) : Int) = n := Int.toNat_of_nonneg (by omega)
  rw [hren]
  have hdec : natDigits n.toNat ++ " minute".data ++ pluralS n ++ " ago".data =
      natDigits n.toNat ++ ' ' :: ("minute".data ++ (pluralS n ++ " ago".data)) := by
    simp [List.append_assoc]
  rw [hdec]
  have hmin : strIncludes (String.mk (natDigits n.toNat ++ ' ' ::
      ("minute".data ++ (pluralS n ++ " ago".data)))) "minute" = true :=
    strIncludes_true_of _ _ (isInfix_cons_middle _ _ _ _)
  unfold parseTimeAgo
  rw [hmin]
  simp only [if_true]
  rw [parseLeadingInt_natDigits_space, hcast]

/-- A unit pattern that does not occur past the digits does not occur in
the label at all. -/
theorem no_unit_in_label (u : String) (c0 : Char) (h0 : u.data.head? = some c0)
    (hd : c0.isDigit = false) (m : Nat) (t : List Char)
    (h : ¬ (u.data <:+: t)) :
    strIncludes (String.mk (natDigits m ++ t)) u = false :=
  strIncludes_false_of _ _ (not_isInfix_digits_append _ _ _
    (unit_head_not_digit u c0 h0 hd) h)

/-- Parsing an hours label recovers `now - n` hours. -/
theorem parseTimeAgo_hour_label (now n : Int) (hn : 1 ≤ n) :
    parseTimeAgo now (String.mk (renderInt n ++ " hour".data ++ pluralS n ++
      " ago".data)) = now - n * 3600000 := by
  have hren : renderInt n = natDigits n.toNat := by
    unfold renderInt
    rw [if_neg (by omega : ¬ n < 0)]
  have hcast : ((n.toNat : Nat) : Int) = n := Int.toNat_of_nonneg (by omega)
  rw [hren]
  have hdec : natDigits n.toNat ++ " hour".data ++ pluralS n ++ " ago".data =
      natDigits n.toNat ++ ' ' :: ("hour".data ++ (pluralS n ++ " ago".data)) := by
    simp [List.append_assoc]
  rw [hdec]
  have hnomin : ¬ ("minute".data <:+:
      ' ' :: ("hour".data ++ (pluralS n ++ " ago".data))) := by
    rcases eq_or_ne n 1 with h1 | h1
    · subst h1; decide
    · rw [show pluralS n = ['s'] from by simp [pluralS, h1]]; decide
  have hmf := no_unit_in_label "minute" 'm' (by decide) (by decide) n.toNat _ hnomin
  have hht : strIncludes (String.mk (natDigits n.toNat ++ ' ' ::
      ("hour".data ++ (pluralS n ++ " ago".data)))) "hour" = true :=
    strIncludes_true_of _ _ (isInfix_cons_middle _ _ _ _)
  unfold parseTimeAgo
  rw [hmf, hht]
  simp only [Bool.false_eq_true, if_false, if_true]
  rw [parseLeadingInt_natDigits_space, hcast]

/-- Parsing a days label recovers `now - n` days. -/
theorem parseTimeAgo_day_label (now n : Int) (hn : 1 ≤ n) :
    parseTimeAgo now (String.mk (renderInt n ++ " day".data ++ pluralS n ++
      " ago".data)) = now - n * 86400000 := by
  have hren : renderInt n = natDigits n.toNat := by
    unfold renderInt
    rw [if_neg (by omega : ¬ n < 0)]
  have hcast : ((n.toNat : Nat) : Int) = n := Int.toNat_of_nonneg (by omega)
  rw [hren]
  have hdec : natDigits n.toNat ++ " day".data ++ pluralS n ++ " ago".data =
      natDigits n.toNat ++ ' ' :: ("day".data ++ (pluralS n ++ " ago".data)) := by
    simp [List.append_assoc]
  rw [hdec]
  have hnomin : ¬ ("minute".data <:+:
      ' ' :: ("day".data ++ (pluralS n ++ " ago".data))) := by
    rcases eq_or_ne n 1 with h1 | h1
    · subst h1; decide
    · rw [show pluralS n = ['s'] from by simp [pluralS, h1]]; decide
  have hnohour : ¬ ("hour".data <:+:
      ' ' :: ("day".data ++ (pluralS n ++ " ago".data))) := by
    rcases eq_or_ne n 1 with h1 | h1
    · subst h1; decide
    · rw [show pluralS n = ['s'] from by simp [pluralS, h1]]; decide
  have hmf := no_unit_in_label "minute" 'm' (by decide) (by decide) n.toNat _ hnomin
  have hhf := no_unit_in_label "hour" 'h' (by decide) (by decide) n.toNat _ hnohour
  have hdt : strIncludes (String.mk (natDigits n.toNat ++ ' ' ::
      ("day".data ++ (pluralS n ++ " ago".data)))) "day" = true :=
    strIncludes_true_of _ _ (isInfix_cons_middle _ _ _ _)
  unfold parseTimeAgo
  rw [hmf, hhf, hdt]
  simp only [Bool.false_eq_true, if_false, if_true]
  rw [parseLeadingInt_natDigits_space, hcast]

/-- Parsing a months label recovers `now - n` months of 30 days. -/
theorem parseTimeAgo_month_label (now n : Int) (hn : 1 ≤ n) :
    parseTimeAgo now (String.mk (renderInt n ++ " month".data ++ pluralS n ++
      " ago".data)) = now - n * 2592000000 := by
  have hren : renderInt n = natDigits n.toNat := by
    unfold renderInt
    rw [if_neg (by omega : ¬ n < 0)]
  have hcast : ((n.toNat : Nat) : Int) = n := Int.toNat_of_nonneg (by omega)
  rw [hren]
  have hdec : natDigits n.toNat ++ " month".data ++ pluralS n ++ " ago".data =
      natDigits n.toNat ++ ' ' :: ("month".data ++ (pluralS n ++ " ago".data)) := by
    simp [List.append_assoc]
  rw [hdec]
  have hnomin : ¬ ("minute".data <:+:
      ' ' :: ("month".data ++ (pluralS n ++ " ago".data))) := by
    rcases eq_or_ne n 1 with h1 | h1
    · subst h1; decide
    · rw [show pluralS n = ['s'] from by simp [pluralS, h1]]; decide
  have hnohour : ¬ ("hour".data <:+:
      ' ' :: ("month".data ++ (pluralS n ++ " ago".data))) := by
    rcases eq_or_ne n 1 with h1 | h1
    · subst h1; decide
    · rw [show pluralS n = ['s'] from by simp [pluralS, h1]]; decide
  have hnoday : ¬ ("day".data <:+:
      ' ' :: ("month".data ++ (pluralS n ++ " ago".data))) := by
    rcases eq_or_ne n 1 with h1 | h1
    · subst h1; decide
    · rw [show pluralS n = ['s'] from by simp [pluralS, h1]]; decide
  have hmf := no_unit_in_label "minute" 'm' (by decide) (by decide) n.toNat _ hnomin
  have hhf := no_unit_in_label "hour" 'h' (by decide) (by decide) n.toNat _ hnohour
  have hdf := no_unit_in_label "day" 'd' (by decide) (by decide) n.toNat _ hnoday
  have hmt : strIncludes (String.mk (natDigits n.toNat ++ ' ' ::
      ("month".data ++ (pluralS n ++ " ago".data)))) "month" = true :=
    strIncludes_true_of _ _ (isInfix_cons_middle _ _ _ _)
  unfold parseTimeAgo
  rw [hmf, hhf, hdf, hmt]
  simp only [Bool.false_eq_true, if_false, if_true]
  rw [parseLeadingInt_natDigits_space, hcast]

/-- Parsing the label `"just now"` yields `now`. -/
theorem parseTimeAgo_justnow (now : Int) :
    parseTimeAgo now (String.mk "just now".data) = now := by
  unfold parseTimeAgo
  rw [show strIncludes (String.mk "just now".data) "minute" = false from by decide,
    show strIncludes (String.mk "just now".data) "hour" = false from by decide,
    show strIncludes (String.mk "just now".data) "day" = false from by decide,
    show strIncludes (String.mk "just now".data) "month" = false from by decide]
  simp

/-! ## C9: bucket classification lemmas -/

/-- Bucket: just now. -/
theorem timeBucket_justNow (now t : Int) (h : (now - t) / 60000 < 1) :
    timeBucket now t = .justNow := by
  unfold timeBucket
  rw [if_pos h]

/-- Bucket: minutes. -/
theorem timeBucket_minutes (now t : Int) (h1 : ¬ (now - t) / 60000 < 1)
    (h2 : (now - t) / 60000 < 60) :
    timeBucket now t = .minutes ((now - t) / 60000) := by
  unfold timeBucket
  rw [if_neg h1, if_pos h2]

/-- Bucket: hours. -/
theorem timeBucket_hours (now t : Int) (h1 : ¬ (now - t) / 60000 < 1)
    (h2 : ¬ (now - t) / 60000 < 60) (h3 : (now - t) / 3600000 < 24) :
    timeBucket now t = .hours ((now - t) / 3600000) := by
  unfold timeBucket
  rw [if_neg h1, if_neg h2, if_pos h3]

/-- Bucket: days. -/
theorem timeBucket_days (now t : Int) (h1 : ¬ (now - t) / 60000 < 1)
    (h2 : ¬ (now - t) / 60000 < 60) (h3 : ¬ (now - t) / 3600000 < 24)
    (h4 : (now - t) / 86400000 < 30) :
    timeBucket now t = .days ((now - t) / 86400000) := by
  unfold timeBucket
  rw [if_neg h1, if_neg h2, if_neg h3, if_pos h4]

/-- Bucket: months. -/
theorem timeBucket_months (now t : Int) (h1 : ¬ (now - t) / 60000 < 1)
    (h2 : ¬ (now - t) / 60000 < 60) (h3 : ¬ (now - t) / 3600000 < 24)
    (h4 : ¬ (now - t) / 86400000 < 30) :
    timeBucket now t = .months ((now - t) / 86400000 / 30) := by
  unfold timeBucket
  rw [if_neg h1, if_neg h2, if_neg h3, if_neg h4]

/-- C9: for every timestamp `t` not after `now`, parsing the formatted
relative-time label recovers a timestamp in the same coarse bucket as `t`
(same unit and count), though not necessarily equal to `t`. -/
theorem c9_relative_time_roundtrip (now t : Int) (h : t ≤ now) :
    timeBucket now (parseTimeAgo now (formatTimeAgo now t)) = timeBucket now t := by
  have h0 : 0 ≤ now - t := by omega
  unfold formatTimeAgo formatChars
  by_cases hb1 : (now - t) / 60000 < 1
  · rw [if_pos hb1, parseTimeAgo_justnow, timeBucket_justNow now t hb1,
      timeBucket_justNow now now (by omega)]
  · rw [if_neg hb1]
    by_cases hb2 : (now - t) / 60000 < 60
    · rw [if_pos hb2, parseTimeAgo_minute_label now _ (by omega),
        timeBucket_minutes now t hb1 hb2,
        timeBucket_minutes now _ (by omega) (by omega)]
      congr 1
      omega
    · rw [if_neg hb2]
      by_cases hb3 : (now - t) / 3600000 < 24
      · rw [if_pos hb3, parseTimeAgo_hour_label now _ (by omega),
          timeBucket_hours now t hb1 hb2 hb3,
          timeBucket_hours now _ (by omega) (by omega) (by omega)]
        congr 1
        omega
      · rw [if_neg hb3]
        by_cases hb4 : (now - t) / 86400000 < 30
        · rw [if_pos hb4, parseTimeAgo_day_label now _ (by omega),
            timeBucket_days now t hb1 hb2 hb3 hb4,
            timeBucket_days now _ (by omega) (by omega) (by omega) (by omega)]
          congr 1
          omega
        · rw [if_neg hb4, parseTimeAgo_month_label now _ (by omega),
            timeBucket_months now t hb1 hb2 hb3 hb4,
            timeBucket_months now _ (by omega) (by omega) (by omega) (by omega)]
          congr 1
          omega

/-- C9 witness: the round trip at `t = now` (the "just now" bucket). -/
theorem c9_relative_time_roundtrip_witness :
    timeBucket 0 (parseTimeAgo 0 (formatTimeAgo 0 0)) = timeBucket 0 0 :=
  c9_relative_time_roundtrip 0 0 le_rfl
